import Mathlib

/-!
Verification of the AttributionIQ browser tracker (`src/static/tracker.js`).

The script runs once on `DOMContentLoaded`: it reads `window.attributionIQ`
for `tenant_id` / `api_key`, aborts with a logged error when either is
missing or empty, otherwise sends one page-view event and installs
`window.attributionIQ.trackConversion`.  Helper functions derive a referral
channel from `document.referrer` by ordered substring matching and a
persistent customer id from `localStorage`.

The embedding below models JavaScript values (for the untyped
`trackConversion` argument and the `value || 0` default substitution),
events as records, `localStorage` as the single relevant optional key, and
the fire-and-forget `fetch(...).catch(...)` as a transport outcome that is
an explicit input of each tracking step.
-/

namespace AttributionIQ

/-- Model of the JavaScript values the tracker can receive or store:
`undefined`, `null`, booleans, numbers (modelled as rationals; the script
does no arithmetic beyond default substitution) and strings. -/
inductive JSVal where
  | undef : JSVal
  | null : JSVal
  | bool : Bool → JSVal
  | num : ℚ → JSVal
  | str : String → JSVal
deriving DecidableEq, Repr

/-- JavaScript truthiness on the modelled values: `undefined`, `null`,
`false`, `0` and `""` are falsy, everything else is truthy. -/
def truthy : JSVal → Bool
  | JSVal.undef => false
  | JSVal.null => false
  | JSVal.bool b => b
  | JSVal.num q => decide (q ≠ 0)
  | JSVal.str s => decide (s ≠ "")

/-- JavaScript `a || b`: returns `a` when `a` is truthy, else `b`.
This is the default-substitution operator used in `value || 0`. -/
def jsOr (a b : JSVal) : JSVal := if truthy a then a else b

/-- Substring containment on character lists: `includesAux sub hay` is true
iff `sub` occurs contiguously inside `hay`.  Models JS `hay.includes(sub)`. -/
def includesAux (sub : List Char) : List Char → Bool
  | [] => sub.isEmpty
  | c :: rest => sub.isPrefixOf (c :: rest) || includesAux sub rest

/-- JS `s.includes(sub)`: plain substring containment on the raw string. -/
def strIncludes (s sub : String) : Bool := includesAux sub.data s.data

/-- The `domains` object of `getReferralChannel`, as the ordered
(key, value) pair list that `Object.entries` yields (insertion order for
these non-numeric string keys). -/
def domains : List (String × String) :=
  [("google", "google"), ("bing", "bing"), ("yahoo", "yahoo"),
   ("duckduckgo", "duckduckgo"), ("facebook", "facebook"),
   ("instagram", "instagram"), ("twitter", "twitter"),
   ("linkedin", "linkedin"), ("tiktok", "tiktok")]

/-- Translation of `getReferralChannel`: empty referrer gives `"direct"`;
otherwise the first `domains` entry whose key is a substring of the raw
referrer gives its value; otherwise `"other"`. -/
def getReferralChannel (ref : String) : String :=
  if ref = "" then "direct"
  else
    match domains.find? (fun p => strIncludes ref p.1) with
    | some p => p.2
    | none => "other"

/-- The nine tokens in the fixed priority order the spec lists; used to
state claims about `getReferralChannel` independently of `domains`. -/
def tokenOrder : List String :=
  ["google", "bing", "yahoo", "duckduckgo", "facebook",
   "instagram", "twitter", "linkedin", "tiktok"]

/-- Character-wise lower-casing of a string; used only to state that a
referrer contains a token in a different letter case. -/
def lowerStr (s : String) : String := String.mk (s.data.map Char.toLower)

/-- Digit character for base-36 output, as produced by JS
`Number.prototype.toString(36)`: `0`-`9` then `a`-`z`. -/
def base36Digit (n : Nat) : Char :=
  if n < 10 then Char.ofNat (48 + n) else Char.ofNat (87 + n)

/-- Accumulator loop of base-36 rendering of a natural number; the first
argument is structural fuel (any fuel at least the number itself renders
it completely, since the quotient shrinks at every step). -/
def natToBase36Core : Nat → Nat → List Char → List Char
  | 0, _, acc => acc
  | fuel + 1, n, acc =>
    if n = 0 then acc
    else natToBase36Core fuel (n / 36) (base36Digit (n % 36) :: acc)

/-- Base-36 rendering of a natural number, modelling `n.toString(36)` for
the non-negative integers the tracker feeds it (`Date.now()`). -/
def natToBase36 (n : Nat) : String :=
  if n = 0 then "0" else String.mk (natToBase36Core n n [])

/-- The freshly generated customer id of `getCustomerId`:
`Math.random().toString(36).substr(2, 10) + Date.now().toString(36)`.
The random part is an arbitrary string parameter (it models the
nondeterministic `Math.random` fragment, which may even be empty); the
timestamp part is base-36 of the current time. -/
def genCid (rand : String) (now : Nat) : String := rand ++ natToBase36 now

/-- Translation of `getCustomerId`.  `store` is the current value of the
fixed `localStorage` key `attributioniq_cid` (`none` models `getItem`
returning `null`); `fresh` is the id that would be generated on a miss.
JS `if (!cid)` regenerates both on `null` and on the empty string.
Returns the id handed back and the updated value of the key. -/
def getCustomerId (store : Option String) (fresh : String) :
    String × Option String :=
  let cid := store.getD ""
  if cid = "" then (fresh, some fresh) else (cid, some cid)

/-- Body of a tracked event as built by the script and serialized by
`JSON.stringify`: `is_conversion` and `conversion_value` are present only
on conversion events, hence optional. -/
structure Event where
  customer_id : String
  channel : String
  value : ℚ
  is_conversion : Option Bool
  conversion_value : Option JSVal
deriving DecidableEq, Repr

/-- The page-view event sent on load: `value: 1.0`, no conversion fields. -/
def pageViewEvent (cid chan : String) : Event :=
  { customer_id := cid, channel := chan, value := 1,
    is_conversion := none, conversion_value := none }

/-- The event built by `trackConversion(value)`: carries `value: 1.0`,
`is_conversion: true` and `conversion_value: value || 0`. -/
def conversionEvent (cid chan : String) (value : JSVal) : Event :=
  { customer_id := cid, channel := chan, value := 1,
    is_conversion := some true,
    conversion_value := some (jsOr value (JSVal.num 0)) }

/-- Truthiness of an optional configuration string: `none` models an
absent field (`undefined`), and the empty string is falsy, so
`!tenantId` holds exactly when this is `false`. -/
def truthyStr : Option String → Bool
  | none => false
  | some s => decide (s ≠ "")

/-- The configuration read from `window.attributionIQ`: the two string
fields the script consults, each possibly absent. -/
structure Config where
  tenant_id : Option String
  api_key : Option String

/-- Observable outcome of the `DOMContentLoaded` handler: whether the
configuration error was logged, the network requests issued during
initialization, whether `trackConversion` was installed on the global
namespace, and the resulting `localStorage` state. -/
structure InitResult where
  errorLogged : Bool
  requests : List Event
  installed : Bool
  store : Option String
deriving DecidableEq, Repr

/-- Translation of the `DOMContentLoaded` handler: on missing or empty
`tenant_id` or `api_key` it logs an error and returns (no request, no
installed function); otherwise it sends exactly the page-view event and
installs `trackConversion`. -/
def initTracker (cfg : Config) (store : Option String) (fresh ref : String) :
    InitResult :=
  if !truthyStr cfg.tenant_id || !truthyStr cfg.api_key then
    { errorLogged := true, requests := [], installed := false, store := store }
  else
    let r := getCustomerId store fresh
    { errorLogged := false,
      requests := [pageViewEvent r.1 (getReferralChannel ref)],
      installed := true,
      store := r.2 }

/-- Outcome of one `fetch` call: the promise either resolves or rejects
with a network-layer error. -/
inductive Transport where
  | ok : Transport
  | failed : Transport
deriving DecidableEq, Repr

/-- Console output produced by the `.catch` handler of `trackEvent` for one
transport outcome: a rejected fetch logs the error, a resolved one logs
nothing (non-2xx statuses are not inspected). -/
def trackEventLog : Transport → List String
  | Transport.ok => []
  | Transport.failed => ["AttributionIQ tracking error:"]

/-- State of the page as the tracker sees it: the `localStorage` key,
the console error log, and the requests issued so far. -/
structure SysState where
  store : Option String
  logs : List String
  sent : List Event
deriving DecidableEq, Repr

/-- Translation of `trackEvent(data)` with an explicit transport outcome:
the request is always issued (appended to `sent`); a failure is caught by
`.catch` and only appends a console line — the event is dropped (nothing
else is recorded, no queue, no retry) and no exception escapes. -/
def doTrackEvent (e : Event) (t : Transport) (s : SysState) : SysState :=
  { s with sent := s.sent ++ [e], logs := s.logs ++ trackEventLog t }

/-- Translation of one call to the installed
`window.attributionIQ.trackConversion(arg)`: re-reads the customer id,
recomputes the channel from the current referrer `ref`, and sends one
conversion event via `trackEvent`. -/
def stepConversion (fresh ref : String) (arg : JSVal) (t : Transport)
    (s : SysState) : SysState :=
  let r := getCustomerId s.store fresh
  doTrackEvent (conversionEvent r.1 (getReferralChannel ref) arg) t
    { s with store := r.2 }

/-! Helper lemmas shared by the claim theorems. -/

lemma strIncludes_empty_left (sub : String) (h : sub ≠ "") :
    strIncludes "" sub = false := by
  have hd : sub.data ≠ [] := fun hnil => h (String.ext hnil)
  simp only [strIncludes, includesAux]
  cases hs : sub.data with
  | nil => exact absurd hs hd
  | cons c cs => simp [hs]

lemma tokenOrder_tokens_ne_empty : ∀ t ∈ tokenOrder, t ≠ "" := by decide

lemma domains_eq_map : domains = tokenOrder.map (fun t => (t, t)) := rfl

lemma find?_domains (ref : String) :
    domains.find? (fun p => strIncludes ref p.1)
      = (tokenOrder.find? (fun t => strIncludes ref t)).map (fun t => (t, t)) := by
  rw [domains_eq_map, List.find?_map]
  rfl

lemma ref_ne_empty_of_find (ref t : String)
    (h : tokenOrder.find? (fun tok => strIncludes ref tok) = some t) :
    ref ≠ "" := by
  intro h0
  have ht : strIncludes ref t = true := List.find?_some h
  have hmem : t ∈ tokenOrder := List.mem_of_find?_eq_some h
  have hne : t ≠ "" := tokenOrder_tokens_ne_empty t hmem
  rw [h0, strIncludes_empty_left t hne] at ht
  exact Bool.false_ne_true ht

lemma channel_other_of_no_match (ref : String) (h0 : ref ≠ "")
    (h : ∀ t ∈ tokenOrder, strIncludes ref t = false) :
    getReferralChannel ref = "other" := by
  unfold getReferralChannel
  rw [if_neg h0, find?_domains]
  have hnone : tokenOrder.find? (fun t => strIncludes ref t) = none :=
    List.find?_eq_none.mpr (fun x hx => by simp [h x hx])
  rw [hnone]
  rfl

lemma natToBase36Core_length (fuel : Nat) :
    ∀ n acc, acc.length ≤ (natToBase36Core fuel n acc).length := by
  induction fuel with
  | zero => intro n acc; simp [natToBase36Core]
  | succ m ih =>
    intro n acc
    by_cases h : n = 0
    · simp [natToBase36Core, h]
    · simp only [natToBase36Core, if_neg h]
      exact le_trans (by simp) (ih (n / 36) (base36Digit (n % 36) :: acc))

lemma natToBase36_ne_empty (n : Nat) : natToBase36 n ≠ "" := by
  unfold natToBase36
  by_cases h : n = 0
  · simp [h]
  · rw [if_neg h]
    intro hcontra
    have hnil : natToBase36Core n n [] = [] := by
      have := congrArg String.data hcontra
      simpa using this
    obtain ⟨m, rfl⟩ : ∃ m, n = m + 1 :=
      ⟨n - 1, (Nat.succ_pred_eq_of_pos (Nat.pos_of_ne_zero h)).symm⟩
    rw [natToBase36Core, if_neg h] at hnil
    have hlen := natToBase36Core_length m ((m + 1) / 36)
      [base36Digit ((m + 1) % 36)]
    rw [hnil] at hlen
    simp at hlen

lemma genCid_ne_empty (rand : String) (now : Nat) : genCid rand now ≠ "" := by
  intro h
  apply natToBase36_ne_empty now
  have hd := congrArg String.data h
  simp only [genCid, String.data_append] at hd
  have hnil := (List.append_eq_nil.mp (by simpa using hd)).2
  exact String.ext (by simpa using hnil)

/-! Claim theorems. -/

/-- C1 (counterexample): the claim says `conversion_value` is `0` whenever
the argument is absent or non-numeric, but calling the installed
`trackConversion` with the non-numeric truthy argument `"promo"` issues a
request whose `conversion_value` is the string `"promo"`, not `0`:
`value || 0` keeps any truthy value. -/
theorem trackConversion_nonnumeric_counterexample :
    ((stepConversion "fresh" "" (JSVal.str "promo") Transport.ok
        { store := some "cid", logs := [], sent := [] }).sent.map
          (fun e => e.conversion_value))
      = [some (JSVal.str "promo")] ∧
    JSVal.str "promo" ≠ JSVal.num 0 := by decide

/-- C1 (amended): every call to the installed `trackConversion` issues
exactly one request whose body has `is_conversion: true`, and whose
`conversion_value` is the supplied argument when that argument is truthy
(in particular any non-zero number such as `42`) and `0` when it is falsy
(absent, `null`, `false`, `0`, or the empty string); a truthy non-numeric
argument is passed through unchanged rather than substituted by `0`. -/
theorem trackConversion_request (s : SysState) (fresh ref : String)
    (arg : JSVal) (t : Transport) :
    (stepConversion fresh ref arg t s).sent
      = s.sent ++ [conversionEvent (getCustomerId s.store fresh).1
          (getReferralChannel ref) arg] ∧
    (conversionEvent (getCustomerId s.store fresh).1
        (getReferralChannel ref) arg).is_conversion = some true ∧
    (conversionEvent (getCustomerId s.store fresh).1
        (getReferralChannel ref) arg).conversion_value
      = some (if truthy arg then arg else JSVal.num 0) :=
  ⟨rfl, rfl, rfl⟩

/-- C2: whenever the first token of the fixed priority list
`google, bing, yahoo, duckduckgo, facebook, instagram, twitter, linkedin,
tiktok` that occurs as a substring of the raw referrer is `t`, the derived
channel is exactly that token `t` itself. -/
theorem getReferralChannel_first_match (ref t : String)
    (h : tokenOrder.find? (fun tok => strIncludes ref tok) = some t) :
    getReferralChannel ref = t := by
  have h0 : ref ≠ "" := ref_ne_empty_of_find ref t h
  unfold getReferralChannel
  rw [if_neg h0, find?_domains, h]
  rfl

/-- C2 (witness): a referrer containing both `facebook` (textually first)
and `google` derives `google`, the first token in list order. -/
theorem getReferralChannel_first_match_witness :
    tokenOrder.find?
        (fun tok => strIncludes "https://www.facebook.com/?q=google" tok)
      = some "google" ∧
    getReferralChannel "https://www.facebook.com/?q=google" = "google" :=
  ⟨by decide, getReferralChannel_first_match _ _ (by decide)⟩

/-- C3: if `tenant_id` or `api_key` is missing or empty, initialization
logs the configuration error, issues no request, installs no global
conversion-tracking function, and leaves storage untouched. -/
theorem initTracker_invalid_config (cfg : Config) (store : Option String)
    (fresh ref : String)
    (h : cfg.tenant_id = none ∨ cfg.tenant_id = some "" ∨
         cfg.api_key = none ∨ cfg.api_key = some "") :
    (initTracker cfg store fresh ref).errorLogged = true ∧
    (initTracker cfg store fresh ref).requests = [] ∧
    (initTracker cfg store fresh ref).installed = false ∧
    (initTracker cfg store fresh ref).store = store := by
  have hb : (!truthyStr cfg.tenant_id || !truthyStr cfg.api_key) = true := by
    rcases h with h | h | h | h <;> simp [truthyStr, h]
  simp [initTracker, hb]

/-- C3 (witness): a configuration with `tenant_id` absent aborts
initialization with no request and no installed function. -/
theorem initTracker_invalid_config_witness :
    (Config.mk none (some "key")).tenant_id = none ∧
    ((initTracker (Config.mk none (some "key")) none "f" "").errorLogged = true ∧
     (initTracker (Config.mk none (some "key")) none "f" "").requests = [] ∧
     (initTracker (Config.mk none (some "key")) none "f" "").installed = false ∧
     (initTracker (Config.mk none (some "key")) none "f" "").store = none) :=
  ⟨rfl, initTracker_invalid_config _ _ _ _ (Or.inl rfl)⟩

/-- C4: with both credentials present and non-empty, initialization issues
exactly one request, the page-view event, whose `value` is `1.0` and which
has no `is_conversion` field. -/
theorem initTracker_valid_config (cfg : Config) (store : Option String)
    (fresh ref : String)
    (h1 : truthyStr cfg.tenant_id = true) (h2 : truthyStr cfg.api_key = true) :
    (initTracker cfg store fresh ref).requests.length = 1 ∧
    (∀ e ∈ (initTracker cfg store fresh ref).requests,
      e.value = 1 ∧ e.is_conversion = none) ∧
    (initTracker cfg store fresh ref).errorLogged = false := by
  simp [initTracker, h1, h2, pageViewEvent]

/-- C4 (witness): a concrete valid configuration sends exactly one
page-view request with `value = 1.0` and no conversion marker. -/
theorem initTracker_valid_config_witness :
    (truthyStr (Config.mk (some "t") (some "key")).tenant_id = true ∧
     truthyStr (Config.mk (some "t") (some "key")).api_key = true) ∧
    ((initTracker (Config.mk (some "t") (some "key")) none "f" "").requests.length = 1 ∧
     (∀ e ∈ (initTracker (Config.mk (some "t") (some "key")) none "f" "").requests,
       e.value = 1 ∧ e.is_conversion = none) ∧
     (initTracker (Config.mk (some "t") (some "key")) none "f" "").errorLogged = false) :=
  ⟨⟨by decide, by decide⟩,
    initTracker_valid_config _ _ _ _ (by decide) (by decide)⟩

/-- C5: starting from empty storage, the first call to `getCustomerId`
returns a non-empty freshly generated id and persists exactly that id
under the key, and a second call in the resulting storage context returns
the identical string and leaves the stored value unchanged. -/
theorem getCustomerId_stable (rand₁ rand₂ : String) (now₁ now₂ : Nat) :
    (getCustomerId none (genCid rand₁ now₁)).1 ≠ "" ∧
    (getCustomerId none (genCid rand₁ now₁)).2
      = some (getCustomerId none (genCid rand₁ now₁)).1 ∧
    (getCustomerId (getCustomerId none (genCid rand₁ now₁)).2
        (genCid rand₂ now₂)).1
      = (getCustomerId none (genCid rand₁ now₁)).1 ∧
    (getCustomerId (getCustomerId none (genCid rand₁ now₁)).2
        (genCid rand₂ now₂)).2
      = (getCustomerId none (genCid rand₁ now₁)).2 := by
  have hne : genCid rand₁ now₁ ≠ "" := genCid_ne_empty rand₁ now₁
  have h1 : getCustomerId none (genCid rand₁ now₁)
      = (genCid rand₁ now₁, some (genCid rand₁ now₁)) := rfl
  have h2 : getCustomerId (some (genCid rand₁ now₁)) (genCid rand₂ now₂)
      = (genCid rand₁ now₁, some (genCid rand₁ now₁)) := by
    simp [getCustomerId, hne]
  rw [h1]
  exact ⟨hne, rfl, by rw [h2], by rw [h2]⟩

/-- C6: a transport failure during `trackEvent` is caught by the `.catch`
handler and only logged: the state gains exactly the one issued request
and one error line (nothing is queued or retried, storage is untouched),
and a later `trackConversion` call appends exactly the same event whether
the earlier transmission failed or succeeded. -/
theorem trackEvent_failure_isolated (e : Event) (s : SysState)
    (fresh ref : String) (arg : JSVal) (t₂ : Transport) :
    (doTrackEvent e Transport.failed s).logs
      = s.logs ++ ["AttributionIQ tracking error:"] ∧
    (doTrackEvent e Transport.failed s).store = s.store ∧
    (doTrackEvent e Transport.failed s).sent = s.sent ++ [e] ∧
    (stepConversion fresh ref arg t₂ (doTrackEvent e Transport.failed s)).sent
      = s.sent ++ [e] ++ [conversionEvent (getCustomerId s.store fresh).1
          (getReferralChannel ref) arg] ∧
    (stepConversion fresh ref arg t₂ (doTrackEvent e Transport.ok s)).sent
      = s.sent ++ [e] ++ [conversionEvent (getCustomerId s.store fresh).1
          (getReferralChannel ref) arg] :=
  ⟨rfl, rfl, rfl, rfl, rfl⟩

/-- C7: the empty (or absent, which the DOM reports as empty) referrer
derives the channel `direct`. -/
theorem getReferralChannel_empty_direct : getReferralChannel "" = "direct" :=
  rfl

/-- C8: a non-empty referrer containing none of the nine tokens as a
substring derives the channel `other`. -/
theorem getReferralChannel_no_match_other (ref : String) (h0 : ref ≠ "")
    (h : ∀ t ∈ tokenOrder, strIncludes ref t = false) :
    getReferralChannel ref = "other" :=
  channel_other_of_no_match ref h0 h

/-- C8 (witness): `https://example.com/` contains no token and derives
`other`. -/
theorem getReferralChannel_no_match_other_witness :
    (("https://example.com/" : String) ≠ "" ∧
     ∀ t ∈ tokenOrder, strIncludes "https://example.com/" t = false) ∧
    getReferralChannel "https://example.com/" = "other" :=
  ⟨⟨by decide, by decide⟩,
    getReferralChannel_no_match_other _ (by decide) (by decide)⟩

/-- C9: every request issued by the installed `trackConversion` also
carries `value: 1.0` (the page-view value field) alongside the conversion
fields, and its `channel` field is recomputed from the referrer at call
time via `getReferralChannel`. -/
theorem trackConversion_value_and_channel (s : SysState) (fresh ref : String)
    (arg : JSVal) (t : Transport) :
    (conversionEvent (getCustomerId s.store fresh).1
        (getReferralChannel ref) arg).value = 1 ∧
    (conversionEvent (getCustomerId s.store fresh).1
        (getReferralChannel ref) arg).channel = getReferralChannel ref ∧
    (stepConversion fresh ref arg t s).sent
      = s.sent ++ [conversionEvent (getCustomerId s.store fresh).1
          (getReferralChannel ref) arg] :=
  ⟨rfl, rfl, rfl⟩

/-- C10: token matching is case-sensitive on the raw referrer: a non-empty
referrer that contains some token after lower-casing but none of the nine
tokens verbatim derives `other`. -/
theorem getReferralChannel_case_sensitive (ref : String) (h0 : ref ≠ "")
    (hci : ∃ t ∈ tokenOrder, strIncludes (lowerStr ref) t = true)
    (h : ∀ t ∈ tokenOrder, strIncludes ref t = false) :
    getReferralChannel ref = "other" :=
  channel_other_of_no_match ref h0 h

/-- C10 (witness): `https://Google.com/` contains `google` only in mixed
case and derives `other`. -/
theorem getReferralChannel_case_sensitive_witness :
    (("https://Google.com/" : String) ≠ "" ∧
     (∃ t ∈ tokenOrder, strIncludes (lowerStr "https://Google.com/") t = true) ∧
     ∀ t ∈ tokenOrder, strIncludes "https://Google.com/" t = false) ∧
    getReferralChannel "https://Google.com/" = "other" :=
  ⟨⟨by decide, by decide, by decide⟩,
    getReferralChannel_case_sensitive _ (by decide) (by decide) (by decide)⟩

end AttributionIQ
